import Mathlib

/-!
Verification development for the starlink-nmea repository
(src/starlink_nmea.py), a single-file Python program that polls a
Starlink dish for a location fix and re-broadcasts it as NMEA 0183
sentences.

The Python source is shallowly embedded below.  Python floats are
modelled as exact rationals; Python strings as Lean strings; Python
Optional values as Option; structured telemetry payloads as a JSON-like
inductive type PyVal.  Side-effecting collaborators (environment
variables, DNS, TCP probes, HTTP fetches, the optional starlink_grpc
library) are modelled as explicit oracle records passed to the embedded
functions, with an Except result standing for raise-or-return.
-/

/-! ## Decimal and hexadecimal rendering helpers

These model the Python format specifiers used by the source:
02d / 03d (zero-padded decimal), 02X (zero-padded uppercase hex),
.1f and 06.3f (fixed-point).  All are written with structural fuel
recursion so that concrete instances reduce inside the kernel. -/

/-- Decimal digit character for n mod 10. -/
def decDigit (n : ℕ) : Char := Char.ofNat (48 + n % 10)

/-- Uppercase hexadecimal digit character, for n < 16. -/
def hexDigit (n : ℕ) : Char := if n < 10 then Char.ofNat (48 + n) else Char.ofNat (55 + n)

/-- Fuel-driven decimal rendering of a natural number. -/
def natToDecAux : ℕ → ℕ → String
  | 0, _ => ""
  | fuel + 1, n =>
    if n < 10 then String.singleton (decDigit n)
    else natToDecAux fuel (n / 10) ++ String.singleton (decDigit (n % 10))

/-- Decimal rendering of a natural number (no padding). -/
def natToDec (n : ℕ) : String := natToDecAux (n + 1) n

/-- Fuel-driven uppercase hexadecimal rendering of a natural number. -/
def natToHexAux : ℕ → ℕ → String
  | 0, _ => ""
  | fuel + 1, n =>
    if n < 16 then String.singleton (hexDigit n)
    else natToHexAux fuel (n / 16) ++ String.singleton (hexDigit (n % 16))

/-- Uppercase hexadecimal rendering of a natural number (no padding). -/
def natToHex (n : ℕ) : String := natToHexAux (n + 1) n

/-- Python format 02X: uppercase hex, zero-padded to a minimum of two digits. -/
def natToHexPad2 (n : ℕ) : String := if n < 16 then "0" ++ natToHex n else natToHex n

/-- Python format 02d for a natural number. -/
def pad2 (n : ℕ) : String := if n < 10 then "0" ++ natToDec n else natToDec n

/-- Python format 03d for a natural number. -/
def pad3 (n : ℕ) : String :=
  if n < 10 then "00" ++ natToDec n
  else if n < 100 then "0" ++ natToDec n
  else natToDec n

/-- Rational subtraction, spelled through mkRat so that concrete
instances reduce inside the kernel (the standard subtraction on ℚ is
irreducible); proven equal to the standard subtraction below. -/
def qsub (a b : ℚ) : ℚ := mkRat (a.num * b.den - b.num * a.den) (a.den * b.den)

/-- Rational multiplication, spelled through mkRat so that concrete
instances reduce inside the kernel; proven equal to the standard
multiplication below. -/
def qmul (a b : ℚ) : ℚ := mkRat (a.num * b.num) (a.den * b.den)

/-- Absolute value of a rational, written to reduce inside the kernel;
models the abs builtin of Python. -/
def pyAbs (q : ℚ) : ℚ := if q < 0 then -q else q

/-- Floor of a rational, written with Nat division so that concrete
instances reduce inside the kernel. -/
def ratFloor (q : ℚ) : ℤ :=
  if 0 ≤ q then ((q.num.toNat / q.den : ℕ) : ℤ)
  else -((((-q).num.toNat + (-q).den - 1) / (-q).den : ℕ) : ℤ)

/-- Round a rational to the nearest integer, ties to even: the rounding
Python uses when formatting a float with a fixed number of decimals. -/
def roundHalfEven (q : ℚ) : ℤ :=
  let f := ratFloor q
  let r := qsub q (mkRat f 1)
  if r < mkRat 1 2 then f
  else if mkRat 1 2 < r then f + 1
  else if f % 2 = 0 then f else f + 1

/-- Python format .1f for a nonnegative rational. -/
def fmtFixed1Abs (q : ℚ) : String :=
  let m := (roundHalfEven (qmul q 10)).toNat
  natToDec (m / 10) ++ "." ++ natToDec (m % 10)

/-- Python format .1f (sign handled as Python does: the sign of the value
is printed, then the rounded magnitude). -/
def fmtFixed1 (q : ℚ) : String :=
  if q < 0 then "-" ++ fmtFixed1Abs (-q) else fmtFixed1Abs q

/-- Python format 06.3f for a nonnegative rational: three decimals, total
width padded to at least six characters with leading zeros.  In the source
this is only ever applied to a minutes value, which is nonnegative. -/
def fmtMinutes (q : ℚ) : String :=
  let m := (roundHalfEven (qmul q 1000)).toNat
  pad2 (m / 1000) ++ "." ++ pad3 (m % 1000)

/-! ## Sentence encoder (source lines 21-68) -/

/-- Embeds nmea_checksum (source lines 21-25): XOR-fold of the character
ordinals of the sentence body, rendered with Python format 02X. -/
def nmea_checksum (sentence_body : String) : String :=
  natToHexPad2 (sentence_body.data.foldl (fun a c => a ^^^ c.toNat) 0)

/-- Truncated whole degrees of a nonnegative coordinate magnitude:
int(value) in the source, for value nonnegative. -/
def latlonDegrees (a : ℚ) : ℕ := a.num.toNat / a.den

/-- Fractional remainder times sixty: (value - degrees) * 60.0 in the source. -/
def latlonMinutes (a : ℚ) : ℚ := qmul (qsub a (mkRat (latlonDegrees a : ℤ) 1)) 60

/-- Embeds format_lat_lon (source lines 28-37). -/
def format_lat_lon (value : ℚ) (is_lat : Bool) : String × String :=
  let hemi := if value < 0 then (if is_lat then "S" else "W")
              else (if is_lat then "N" else "E")
  let a := pyAbs value
  let degrees := latlonDegrees a
  let minutes := latlonMinutes a
  if is_lat then (pad2 degrees ++ fmtMinutes minutes, hemi)
  else (pad3 degrees ++ fmtMinutes minutes, hemi)

/-- A UTC wall-clock instant, the part of a Python datetime the encoders
read through strftime. -/
structure Timestamp where
  year : ℕ
  month : ℕ
  day : ℕ
  hour : ℕ
  minute : ℕ
  second : ℕ

/-- strftime with format HHMMSS. -/
def timeHHMMSS (ts : Timestamp) : String := pad2 ts.hour ++ pad2 ts.minute ++ pad2 ts.second

/-- strftime with format DDMMYY. -/
def dateDDMMYY (ts : Timestamp) : String := pad2 ts.day ++ pad2 ts.month ++ pad2 (ts.year % 100)

/-- Python `x or 0.0` on an Optional float: None and 0.0 both give 0.0,
anything else gives the value itself (numerically the identity). -/
def pyOrZero (x : Option ℚ) : ℚ :=
  match x with
  | none => 0
  | some v => v

/-- Body of the RMC sentence built by build_rmc (source lines 40-53). -/
def rmc_body (ts_utc : Timestamp) (lat lon : ℚ)
    (speed_knots track_deg : Option ℚ) : String :=
  let time_str := timeHHMMSS ts_utc
  let date_str := dateDDMMYY ts_utc
  let latp := format_lat_lon lat true
  let lonp := format_lat_lon lon false
  let speed := fmtFixed1 (pyOrZero speed_knots)
  let track := fmtFixed1 (pyOrZero track_deg)
  "GPRMC," ++ time_str ++ ".00,A," ++ latp.1 ++ "," ++ latp.2 ++ "," ++
    lonp.1 ++ "," ++ lonp.2 ++ "," ++ speed ++ "," ++ track ++ "," ++ date_str ++ ",,,A"

/-- Embeds build_rmc (source lines 40-54). -/
def build_rmc (ts_utc : Timestamp) (lat lon : ℚ)
    (speed_knots track_deg : Option ℚ) : String :=
  let body := rmc_body ts_utc lat lon speed_knots track_deg
  "$" ++ body ++ "*" ++ nmea_checksum body

/-- Body of the GGA sentence built by build_gga (source lines 57-67). -/
def gga_body (ts_utc : Timestamp) (lat lon : ℚ) (alt_m : Option ℚ) : String :=
  let time_str := timeHHMMSS ts_utc
  let latp := format_lat_lon lat true
  let lonp := format_lat_lon lon false
  let altitude := fmtFixed1 (pyOrZero alt_m)
  "GPGGA," ++ time_str ++ ".00," ++ latp.1 ++ "," ++ latp.2 ++ "," ++
    lonp.1 ++ "," ++ lonp.2 ++ ",1,08,1.0," ++ altitude ++ ",M,0.0,M,,"

/-- Embeds build_gga (source lines 57-68). -/
def build_gga (ts_utc : Timestamp) (lat lon : ℚ) (alt_m : Option ℚ) : String :=
  let body := gga_body ts_utc lat lon alt_m
  "$" ++ body ++ "*" ++ nmea_checksum body


/-! ## Python value model

Telemetry payloads reaching the Location Extractor are either parsed
JSON (dicts, lists, numbers, strings, booleans, null) or client-library
objects carrying named attributes.  PyVal models both: vdict holds dict
entries (isinstance dict, membership with the in operator), vobj holds
object attributes (hasattr and getattr).  Plain dicts expose none of the
telemetry field names as attributes, so hasattr is false on vdict for
every name the source queries. -/

inductive PyVal where
  | vnone : PyVal
  | vbool : Bool → PyVal
  | vnum : ℚ → PyVal
  | vstr : String → PyVal
  | vdict : List (String × PyVal) → PyVal
  | vobj : List (String × PyVal) → PyVal

open PyVal

/-- First binding of a key in an association list (Python dicts have
unique keys, so this is exact). -/
def lookupEntry : List (String × PyVal) → String → Option PyVal
  | [], _ => none
  | (k, v) :: rest, n => if k = n then some v else lookupEntry rest n

/-- Python truthiness of a PyVal: None, False, 0, empty string and empty
dict are falsy; objects are truthy by default. -/
def pyTruthy : PyVal → Bool
  | vnone => false
  | vbool b => b
  | vnum q => if q = 0 then false else true
  | vstr s => if s = "" then false else true
  | vdict entries => if entries.isEmpty then false else true
  | vobj _ => true

/-- isinstance(obj, dict). -/
def isDict : PyVal → Bool
  | vdict _ => true
  | _ => false

/-- Python membership test, name in obj, for a dict. -/
def dictMem (obj : PyVal) (n : String) : Bool :=
  match obj with
  | vdict entries => (lookupEntry entries n).isSome
  | _ => false

/-- obj.get(name) for a dict whose key is present (vnone otherwise,
matching the None default of dict.get). -/
def dictGet (obj : PyVal) (n : String) : PyVal :=
  match obj with
  | vdict entries => (lookupEntry entries n).getD vnone
  | _ => vnone

/-- hasattr(obj, name): attribute presence on a library object; plain
dicts expose none of the queried telemetry names as attributes. -/
def hasattrPy (obj : PyVal) (n : String) : Bool :=
  match obj with
  | vobj attrs => (lookupEntry attrs n).isSome
  | _ => false

/-- getattr(obj, name) when hasattr holds (vnone otherwise). -/
def getattrPy (obj : PyVal) (n : String) : PyVal :=
  match obj with
  | vobj attrs => (lookupEntry attrs n).getD vnone
  | _ => vnone

/-- Embeds _get_attr (source lines 80-86): walk the name list in order;
for each name first test dict membership, then attribute presence; the
first hit is returned.  Python returns None when nothing matches, which
the model renders as vnone. -/
def _get_attr (obj : PyVal) : List String → PyVal
  | [] => vnone
  | n :: rest =>
    if isDict obj && dictMem obj n then dictGet obj n
    else if hasattrPy obj n then getattrPy obj n
    else _get_attr obj rest

/-! ## Numeric coercion (source lines 71-77)

The float builtin applied to strings is modelled by a decimal parser:
optional surrounding spaces, optional sign, digits with an optional
fractional part, optional decimal exponent.  Special float spellings
(inf, nan, underscores in digit groups) are not modelled; the source
never meets them in telemetry fields. -/

/-- ASCII decimal digit test. -/
def isDigitCh (c : Char) : Bool := 48 ≤ c.toNat && c.toNat ≤ 57

/-- Value of an ASCII decimal digit. -/
def digVal (c : Char) : ℕ := c.toNat - 48

/-- Consume leading digits: accumulated value, digit count, rest. -/
def takeDigits : List Char → ℕ → ℕ → ℕ × ℕ × List Char
  | [], acc, cnt => (acc, cnt, [])
  | c :: cs, acc, cnt =>
    if isDigitCh c then takeDigits cs (acc * 10 + digVal c) (cnt + 1)
    else (acc, cnt, c :: cs)

/-- Apply a decimal exponent suffix to a parsed mantissa. -/
def parseExpDigits (q : ℚ) (ds : List Char) (posExp : Bool) : Option ℚ :=
  let (ev, ec, rest) := takeDigits ds 0 0
  if ec = 0 then none
  else if rest.isEmpty then
    some (if posExp then qmul q (mkRat ((10 : ℕ) ^ ev : ℕ) 1) else qmul q (mkRat 1 ((10 : ℕ) ^ ev)))
  else none

/-- Parse an optional exponent part after the mantissa. -/
def parseExpPart (q : ℚ) : List Char → Option ℚ
  | [] => some q
  | c :: rest =>
    if c = 'e' || c = 'E' then
      match rest with
      | '-' :: ds => parseExpDigits q ds false
      | '+' :: ds => parseExpDigits q ds true
      | ds => parseExpDigits q ds true
    else none

/-- Parse an unsigned decimal mantissa with optional fraction. -/
def parseUnsigned (cs : List Char) : Option ℚ :=
  let (ip, ic, rest) := takeDigits cs 0 0
  match rest with
  | '.' :: rest2 =>
    let (fp, fc, rest3) := takeDigits rest2 0 0
    if ic + fc = 0 then none
    else parseExpPart (mkRat ((ip * 10 ^ fc + fp : ℕ) : ℤ) ((10 : ℕ) ^ fc)) rest3
  | other => if ic = 0 then none else parseExpPart (mkRat (ip : ℤ) 1) other

/-- Parse a Python float literal string. -/
def parseFloat (s : String) : Option ℚ :=
  let cs := ((s.data.dropWhile (fun c => c = ' ')).reverse.dropWhile (fun c => c = ' ')).reverse
  match cs with
  | '-' :: rest => (parseUnsigned rest).map (fun q => -q)
  | '+' :: rest => parseUnsigned rest
  | other => parseUnsigned other

/-- Embeds _to_float (source lines 71-77): None maps to none, numbers to
themselves, booleans to 0 or 1 as the float builtin does, numeric
strings through the decimal parser; anything not coercible (TypeError
or ValueError in the source) yields none. -/
def _to_float : PyVal → Option ℚ
  | vnone => none
  | vbool b => some (if b then 1 else 0)
  | vnum q => some q
  | vstr s => parseFloat s
  | vdict _ => none
  | vobj _ => none

/-! ## Location extraction (source lines 89-119) -/

/-- A coordinate as the extractor returns it: the dict with keys lat,
lon, alt built at source lines 99, 108 and 117.  The alt key is always
populated (with alt or 0.0), so the field is total. -/
structure Coord where
  lat : ℚ
  lon : ℚ
  alt : ℚ
deriving DecidableEq

/-- One level of the extraction search: the block repeated at source
lines 94-99, 104-108 and 113-117: read lat, lon and alt under their
accepted spellings, and build the coordinate when lat and lon are both
coercible, collapsing a missing altitude to zero (alt or 0.0). -/
def levelCoords (obj : PyVal) : Option Coord :=
  let lat := _to_float (_get_attr obj ["lat", "latitude"])
  let lon := _to_float (_get_attr obj ["lon", "longitude"])
  let alt := _to_float (_get_attr obj ["alt", "altitude", "altitude_m", "altitudeMeters"])
  match lat, lon with
  | some la, some lo => some ⟨la, lo, pyOrZero alt⟩
  | _, _ => none

/-- Embeds _extract_location (source lines 89-119): direct fields first,
then a truthy gps_stats/gpsStats object, then a truthy
location/position object; the first level presenting both latitude and
longitude wins. -/
def _extract_location (payload : PyVal) : Option Coord :=
  match payload with
  | vnone => none
  | p =>
    match levelCoords p with
    | some c => some c
    | none =>
      let gps := _get_attr p ["gps_stats", "gpsStats"]
      match (if pyTruthy gps then levelCoords gps else none) with
      | some c => some c
      | none =>
        let loc := _get_attr p ["location", "position"]
        if pyTruthy loc then levelCoords loc else none

/-- The three search levels in the order the specification lists them:
the payload itself, then the truthy nested gps object, then the truthy
nested location object. -/
def extractSpecLevels (p : PyVal) : List PyVal :=
  [p]
    ++ (let g := _get_attr p ["gps_stats", "gpsStats"]; if pyTruthy g then [g] else [])
    ++ (let l := _get_attr p ["location", "position"]; if pyTruthy l then [l] else [])

/-- Extraction as the specification words it: the first level whose
latitude and longitude are both present and coercible provides the
result. -/
def extractSpec (p : PyVal) : Option Coord :=
  (extractSpecLevels p).findSome? levelCoords

/-- Field lookup as the specification words it: the first name present
on the object (dict membership checked before attribute presence per
name) provides the value; vnone when no name is present. -/
def pyGetOne (obj : PyVal) (n : String) : Option PyVal :=
  if isDict obj && dictMem obj n then some (dictGet obj n)
  else if hasattrPy obj n then some (getattrPy obj n)
  else none

/-- First-present-name lookup over an ordered name list. -/
def firstPresent (obj : PyVal) (names : List String) : PyVal :=
  (names.findSome? (pyGetOne obj)).getD vnone


/-! ## Device locator (source lines 122-150)

The side effects of detect_dish_host are captured by a NetWorld oracle:
getenv models os.environ.get; gethostbyname models the DNS lookup, with
none standing for a raised gaierror; probe models the outcome of the
TCP reachability probe (_probe_port, source lines 122-127, already
collapses the connection attempt to a boolean). -/

structure NetWorld where
  getenv : String → Option String
  gethostbyname : String → Option String
  probe : String → ℕ → ℚ → Bool

/-- Embeds _probe_port (source lines 122-127): the oracle outcome of a
TCP connection attempt with a timeout. -/
def _probe_port (w : NetWorld) (host : String) (port : ℕ) (timeout_s : ℚ) : Bool :=
  w.probe host port timeout_s

/-- Python truthiness of an Optional string: None and the empty string
are falsy. -/
def pyStrTruthy (o : Option String) : Bool :=
  match o with
  | none => false
  | some s => if s = "" then false else true

/-- The hostname loop of detect_dish_host (source lines 138-144): try
each well-known name, returning the first lookup that yields a truthy
address; a gaierror (none) falls through to the next name. -/
def hostLoop (w : NetWorld) : List String → Option String
  | [] => none
  | h :: rest =>
    match w.gethostbyname h with
    | some ip => if ip = "" then hostLoop w rest else some ip
    | none => hostLoop w rest

/-- Embeds detect_dish_host (source lines 130-150): explicit override if
truthy; then the STARLINK_DISH_IP environment variable or else
STARLINK_DISH_HOST (Python or, so a falsy first read falls to the
second); then DNS lookups of dish and starlink; then the fixed default
IP, kept only when the probe of port 9200 succeeds within half a
second. -/
def detect_dish_host (w : NetWorld) (explicit : Option String) : Option String :=
  if pyStrTruthy explicit then explicit
  else
    let env_host :=
      match w.getenv "STARLINK_DISH_IP" with
      | some s => if s = "" then w.getenv "STARLINK_DISH_HOST" else some s
      | none => w.getenv "STARLINK_DISH_HOST"
    if pyStrTruthy env_host then env_host
    else
      match hostLoop w ["dish", "starlink"] with
      | some ip => some ip
      | none =>
        if _probe_port w "192.168.100.1" 9200 (mkRat 1 2) then some "192.168.100.1"
        else none

/-! ## Telemetry acquirer (source lines 153-237)

A call into the optional starlink_grpc library either returns a payload
or raises; PyResult models that outcome, distinguishing TypeError
(which _call_with_host catches to degrade the call shape) from every
other exception (which the strategy-level try blocks absorb).  A
PyCallable records the outcome of each call shape.  The library surface
is an optional StarlinkGrpc record: dish and grpc are the optional
truthy sub-objects, each optionally exposing get_location, and
get_status is the optional module-level callable.  The HTTP fallback is
an oracle from host and path to raise-or-parsed-JSON: an ok result is
the data object handed to _extract_location at source line 201, and an
error collapses every continue path of source lines 172-203 (request
failure, non-JSON body without an embedded location object, JSON parse
failure). -/

inductive PyExc where
  | typeError : PyExc
  | otherError : PyExc

/-- Outcome of one Python call: a payload or a raised exception. -/
abbrev PyResult := Except PyExc PyVal

/-- Call-shape outcomes of one library callable: keyword host argument,
positional host argument, no argument. -/
structure PyCallable where
  kwHost : String → PyResult
  posHost : String → PyResult
  noArg : PyResult

/-- Embeds _call_with_host (source lines 153-162): with a truthy host,
try func with host as keyword, fall back to positional then to no
arguments on TypeError; without a host, call with no arguments.  Any
exception other than TypeError propagates, as does a TypeError from the
final no-argument call. -/
def _call_with_host (f : PyCallable) (dish_host : Option String) : PyResult :=
  match dish_host with
  | some h =>
    if h = "" then f.noArg
    else
      match f.kwHost h with
      | .error .typeError =>
        match f.posHost h with
        | .error .typeError => f.noArg
        | r => r
      | r => r
  | none => f.noArg

/-- A truthy library sub-object (dish or grpc) with its optional
get_location callable. -/
structure SubObj where
  get_location : Option PyCallable

/-- The starlink_grpc library surface the acquirer probes. -/
structure StarlinkGrpc where
  dish : Option SubObj
  grpc : Option SubObj
  get_status : Option PyCallable

/-- The world the acquirer runs in: the importable library (none when
the import raises) and the HTTP diagnostic oracle. -/
structure StarlinkEnv where
  lib : Option StarlinkGrpc
  fetch : String → String → Except Unit PyVal

/-- Embeds get_starlink_location_http (source lines 165-204): nothing
without a truthy host; otherwise try the diagnostic path then the root
path, returning the extraction of the first successfully fetched and
parsed document — even when that extraction is empty (source line
201) — and falling to the next path only on a raised or skipped
fetch. -/
def get_starlink_location_http (fetch : String → String → Except Unit PyVal)
    (dish_host : Option String) : Option Coord :=
  match dish_host with
  | none => none
  | some h =>
    if h = "" then none
    else
      match fetch h "/api/diagnostic" with
      | .ok data => _extract_location data
      | .error _ =>
        match fetch h "/" with
        | .ok data => _extract_location data
        | .error _ => none

/-- One get_location strategy step (source lines 214-219 and 222-227):
none means the strategy fell through (sub-object absent or falsy,
method missing, or the call raised); some r means the strategy returned
r from the whole function, where r is the extraction of the returned
payload. -/
def tryGetLocation (sub : Option SubObj) (dish_host : Option String) :
    Option (Option Coord) :=
  match sub with
  | none => none
  | some d =>
    match d.get_location with
    | none => none
    | some f =>
      match _call_with_host f dish_host with
      | .ok payload => some (_extract_location payload)
      | .error _ => none

/-- The get_status strategy step (source lines 230-234), with the same
returned-or-fell-through reading as tryGetLocation. -/
def tryGetStatus (c : Option PyCallable) (dish_host : Option String) :
    Option (Option Coord) :=
  match c with
  | none => none
  | some f =>
    match _call_with_host f dish_host with
    | .ok payload => some (_extract_location payload)
    | .error _ => none

/-- Embeds get_starlink_location (source lines 207-237): none when the
library import fails; otherwise dish.get_location, grpc.get_location,
get_status in order, where a strategy that obtains a payload returns
its extraction immediately, and only unavailable or raising strategies
fall through; the HTTP fallback runs last. -/
def get_starlink_location (env : StarlinkEnv) (dish_host : Option String) :
    Option Coord :=
  match env.lib with
  | none => none
  | some lib =>
    match tryGetLocation lib.dish dish_host with
    | some r => r
    | none =>
      match tryGetLocation lib.grpc dish_host with
      | some r => r
      | none =>
        match tryGetStatus lib.get_status dish_host with
        | some r => r
        | none => get_starlink_location_http env.fetch dish_host

/-! ## TCP broadcast pass (source lines 302-312)

One delivery pass of serve_tcp over the connected client list: clients
are abstract, and the sendOk oracle records whether sendall delivered
the whole payload to a client or raised.  The pass rebuilds the alive
list from the clients whose write succeeded, and closes the others. -/

/-- One broadcast pass: returns (alive, closed) in client order.  A
client whose send succeeds is appended to alive (source line 306); a
client whose send raises is closed and dropped (source lines 307-311). -/
def broadcastPass {κ : Type} (sendOk : κ → Bool) : List κ → List κ × List κ
  | [] => ([], [])
  | c :: rest =>
    let p := broadcastPass sendOk rest
    if sendOk c then (c :: p.1, p.2) else (p.1, c :: p.2)

/-- The XOR-fold of the character ordinals of a sentence body, as the
specification words the checksum. -/
def xorFold (body : String) : ℕ := body.data.foldl (fun a c => a ^^^ c.toNat) 0

/-- Uppercase hexadecimal digit test. -/
def isHexUpper (c : Char) : Bool :=
  (48 ≤ c.toNat && c.toNat ≤ 57) || (65 ≤ c.toNat && c.toNat ≤ 70)

/-- A callable whose every call shape raises a non-TypeError exception. -/
def errCallable : PyCallable :=
  ⟨fun _ => .error .otherError, fun _ => .error .otherError, .error .otherError⟩

/-- A callable that returns the given payload under every call shape. -/
def okCallable (p : PyVal) : PyCallable := ⟨fun _ => .ok p, fun _ => .ok p, .ok p⟩

/-- A payload with no extractable coordinate. -/
def emptyPayload : PyVal := PyVal.vdict []

/-- A status payload carrying a usable coordinate. -/
def statusPayload : PyVal := PyVal.vdict [("lat", PyVal.vnum 1), ("lon", PyVal.vnum 2)]

/-- A library world where dish.get_location succeeds with a coordinate-free
payload while get_status would succeed with a usable coordinate. -/
def envC1 : StarlinkEnv :=
  ⟨some ⟨some ⟨some (okCallable emptyPayload)⟩, none, some (okCallable statusPayload)⟩,
    fun _ _ => .error ()⟩

/-! ## Bridge lemmas between the kernel-friendly arithmetic spellings
and the standard operations on ℚ -/

theorem qmul_eq (a b : ℚ) : qmul a b = a * b := by
  unfold qmul
  rw [Rat.mkRat_eq_divInt, Rat.divInt_eq_div]
  push_cast
  rw [← div_mul_div_comm, Rat.num_div_den, Rat.num_div_den]

theorem qsub_eq (a b : ℚ) : qsub a b = a - b := by
  unfold qsub
  have ha : ((a.den : ℚ)) ≠ 0 := by exact_mod_cast (Rat.den_pos a).ne'
  have hb : ((b.den : ℚ)) ≠ 0 := by exact_mod_cast (Rat.den_pos b).ne'
  rw [Rat.mkRat_eq_divInt, Rat.divInt_eq_div]
  push_cast
  rw [show a - b = a.num / a.den - b.num / b.den by rw [Rat.num_div_den, Rat.num_div_den]]
  rw [div_sub_div _ _ ha hb]
  ring_nf

theorem pyAbs_eq (q : ℚ) : pyAbs q = |q| := by
  unfold pyAbs
  split
  · exact (abs_of_neg (by assumption)).symm
  · exact (abs_of_nonneg (not_lt.mp (by assumption))).symm

theorem pyAbs_nonneg (q : ℚ) : 0 ≤ pyAbs q := by
  rw [pyAbs_eq]; exact abs_nonneg q

theorem latlonDegrees_eq_floor (a : ℚ) (h : 0 ≤ a) : (latlonDegrees a : ℤ) = ⌊a⌋ := by
  unfold latlonDegrees
  rw [Rat.floor_def, Int.ofNat_tdiv, Int.toNat_of_nonneg (Rat.num_nonneg.mpr h)]
  exact Int.tdiv_eq_ediv (Rat.num_nonneg.mpr h) (by exact_mod_cast (Rat.den_pos a).le)

theorem latlonMinutes_eq (a : ℚ) (h : 0 ≤ a) :
    latlonMinutes a = (a - (⌊a⌋ : ℚ)) * 60 := by
  unfold latlonMinutes
  rw [qmul_eq, qsub_eq, Rat.mkRat_one, latlonDegrees_eq_floor a h]

theorem latlonMinutes_nonneg (a : ℚ) (h : 0 ≤ a) : 0 ≤ latlonMinutes a := by
  rw [latlonMinutes_eq a h]
  have hf : ((⌊a⌋ : ℚ)) ≤ a := Int.floor_le a
  have h60 : (0 : ℚ) ≤ 60 := by norm_num
  exact mul_nonneg (sub_nonneg.mpr hf) h60

/-! ## Checksum support lemmas -/

set_option maxRecDepth 4000 in
theorem natToHexPad2_spec :
    ∀ n < 256, (natToHexPad2 n).length = 2 ∧
      ∀ c ∈ (natToHexPad2 n).data, isHexUpper c = true := by decide

theorem xorFold_aux_lt (l : List Char) :
    ∀ acc : ℕ, acc < 128 → (∀ c ∈ l, c.toNat < 128) →
      l.foldl (fun a c => a ^^^ c.toNat) acc < 128 := by
  induction l with
  | nil => intro acc hacc _; simpa using hacc
  | cons c cs ih =>
    intro acc hacc hl
    simp only [List.foldl_cons]
    exact ih _
      (Nat.xor_lt_two_pow (n := 7) hacc (hl c (List.mem_cons_self c cs)))
      (fun d hd => hl d (List.mem_cons_of_mem c hd))

theorem xorFold_lt (body : String) (h : ∀ c ∈ body.data, c.toNat < 128) :
    xorFold body < 128 :=
  xorFold_aux_lt body.data 0 (by norm_num) h

/-! ## Claim theorems -/

/-- C3: for every ASCII sentence body, the checksum the encoders append
equals the XOR-fold of the ordinal values of the characters strictly
between the leading dollar sign and the trailing star, rendered as
exactly two uppercase hexadecimal digits, and every emitted sentence is
the dollar sign, the body, the star, then that checksum. -/
theorem C3_checksum_shape :
    (∀ body : String, (∀ c ∈ body.data, c.toNat < 128) →
        nmea_checksum body = natToHexPad2 (xorFold body) ∧
          (nmea_checksum body).length = 2 ∧
          ∀ c ∈ (nmea_checksum body).data, isHexUpper c = true) ∧
      (∀ (ts : Timestamp) (lat lon : ℚ) (sp tr : Option ℚ),
          build_rmc ts lat lon sp tr =
            "$" ++ rmc_body ts lat lon sp tr ++ "*" ++
              nmea_checksum (rmc_body ts lat lon sp tr)) ∧
      (∀ (ts : Timestamp) (lat lon : ℚ) (alt : Option ℚ),
          build_gga ts lat lon alt =
            "$" ++ gga_body ts lat lon alt ++ "*" ++
              nmea_checksum (gga_body ts lat lon alt)) := by
  refine ⟨fun body h => ?_, fun _ _ _ _ _ => rfl, fun _ _ _ _ => rfl⟩
  have hlt : xorFold body < 256 := lt_trans (xorFold_lt body h) (by norm_num)
  exact ⟨rfl, (natToHexPad2_spec _ hlt).1, (natToHexPad2_spec _ hlt).2⟩

/-- Witness for C3 at a concrete ASCII body. -/
theorem C3_checksum_shape_witness :
    nmea_checksum "GPRMC,120000.00,A" = natToHexPad2 (xorFold "GPRMC,120000.00,A") ∧
      (nmea_checksum "GPRMC,120000.00,A").length = 2 ∧
      ∀ c ∈ (nmea_checksum "GPRMC,120000.00,A").data, isHexUpper c = true :=
  C3_checksum_shape.1 "GPRMC,120000.00,A" (by decide)

/-- C4: the coordinate formatter renders latitude as two-digit truncated
whole degrees of the absolute value followed by the fractional
remainder times sixty as zero-padded minutes with three decimals, and
longitude the same with three-digit degrees; the minutes are never
negative; latitude 37.8199 renders as 3749.194 with hemisphere N and
longitude -122.4783 renders as 12228.698 with hemisphere W. -/
theorem C4_format_lat_lon_spec :
    (∀ v : ℚ,
        format_lat_lon v true =
          (pad2 (latlonDegrees (pyAbs v)) ++ fmtMinutes (latlonMinutes (pyAbs v)),
            if v < 0 then "S" else "N") ∧
          format_lat_lon v false =
            (pad3 (latlonDegrees (pyAbs v)) ++ fmtMinutes (latlonMinutes (pyAbs v)),
              if v < 0 then "W" else "E") ∧
          (latlonDegrees (pyAbs v) : ℤ) = ⌊|v|⌋ ∧
          latlonMinutes (pyAbs v) = (|v| - (⌊|v|⌋ : ℚ)) * 60 ∧
          0 ≤ latlonMinutes (pyAbs v)) ∧
      format_lat_lon (37.8199 : ℚ) true = ("3749.194", "N") ∧
      format_lat_lon (-122.4783 : ℚ) false = ("12228.698", "W") := by
  refine ⟨fun v => ⟨rfl, rfl, ?_, ?_, latlonMinutes_nonneg _ (pyAbs_nonneg v)⟩, ?_, ?_⟩
  · rw [latlonDegrees_eq_floor _ (pyAbs_nonneg v), pyAbs_eq]
  · rw [latlonMinutes_eq _ (pyAbs_nonneg v), pyAbs_eq]
  · rw [show (37.8199 : ℚ) = mkRat 378199 10000 from by norm_num]
    decide
  · rw [show (-122.4783 : ℚ) = mkRat (-1224783) 10000 from by
      rw [Rat.mkRat_eq_div]; norm_num]
    decide

/-- C9: both sentence encoders are deterministic functions of their
arguments: encoding the same input twice yields identical strings. -/
theorem C9_encoders_deterministic :
    ∀ (ts : Timestamp) (lat lon : ℚ) (sp tr alt : Option ℚ),
      build_rmc ts lat lon sp tr = build_rmc ts lat lon sp tr ∧
        build_gga ts lat lon alt = build_gga ts lat lon alt :=
  fun _ _ _ _ _ _ => ⟨rfl, rfl⟩

/-- C2 counterexample: the claim says extraction keeps a missing
altitude distinct from a measured altitude of zero, collapsing only at
encoding time; but _extract_location itself already returns altitude
zero for a payload with no altitude field, indistinguishable from a
payload measuring zero. -/
theorem C2_counterexample :
    _extract_location (vdict [("lat", vnum 7), ("lon", vnum 8)]) =
        _extract_location (vdict [("lat", vnum 7), ("lon", vnum 8), ("alt", vnum 0)]) ∧
      _extract_location (vdict [("lat", vnum 7), ("lon", vnum 8)]) = some ⟨7, 8, 0⟩ :=
  ⟨rfl, rfl⟩

/-- C2 amended: the collapse of a missing altitude to 0.0 already
happens inside extraction (the coordinate dict always carries a numeric
altitude, with absent altitude indistinguishable from measured zero),
and the encoder collapses a missing altitude argument to 0.0 as well. -/
theorem C2_amended_alt_collapse :
    (∀ lat lon : ℚ,
        _extract_location (vdict [("lat", vnum lat), ("lon", vnum lon)]) =
          some ⟨lat, lon, 0⟩) ∧
      ∀ (ts : Timestamp) (lat lon : ℚ),
        build_gga ts lat lon none = build_gga ts lat lon (some 0) :=
  ⟨fun _ _ => rfl, fun _ _ _ => rfl⟩

/-! ## Extraction precedence lemmas -/

theorem pyGetOne_eval (obj : PyVal) (n : String) :
    pyGetOne obj n =
      if isDict obj && dictMem obj n then some (dictGet obj n)
      else if hasattrPy obj n then some (getattrPy obj n)
      else none := rfl

theorem get_attr_eq_findSome (obj : PyVal) (names : List String) :
    _get_attr obj names = (names.findSome? (pyGetOne obj)).getD vnone := by
  induction names with
  | nil => rfl
  | cons n rest ih =>
    rw [List.findSome?_cons, pyGetOne_eval]
    unfold _get_attr
    cases h1 : (isDict obj && dictMem obj n) with
    | true => simp [h1]
    | false =>
      cases h2 : hasattrPy obj n with
      | true => simp [h1, h2]
      | false => simp only [h1, h2, Bool.false_eq_true, if_false]; exact ih

theorem extract_body_eq_spec (q : PyVal) :
    (match levelCoords q with
      | some c => some c
      | none =>
        match (if pyTruthy (_get_attr q ["gps_stats", "gpsStats"]) then
            levelCoords (_get_attr q ["gps_stats", "gpsStats"]) else none) with
        | some c => some c
        | none =>
          if pyTruthy (_get_attr q ["location", "position"]) then
            levelCoords (_get_attr q ["location", "position"]) else none) =
      extractSpec q := by
  unfold extractSpec extractSpecLevels
  cases hg : pyTruthy (_get_attr q ["gps_stats", "gpsStats"]) <;>
    cases hl : pyTruthy (_get_attr q ["location", "position"]) <;>
      cases hc : levelCoords q <;>
        simp [hg, hl, hc, List.findSome?_cons] <;>
          cases hgc : levelCoords (_get_attr q ["gps_stats", "gpsStats"]) <;>
            cases hlc : levelCoords (_get_attr q ["location", "position"]) <;>
              simp [hgc, hlc]

theorem extract_location_eq_spec (p : PyVal) :
    _extract_location p = extractSpec p := by
  cases p with
  | vnone => rfl
  | vbool b => exact extract_body_eq_spec (PyVal.vbool b)
  | vnum q => exact extract_body_eq_spec (PyVal.vnum q)
  | vstr s => exact extract_body_eq_spec (PyVal.vstr s)
  | vdict entries => exact extract_body_eq_spec (PyVal.vdict entries)
  | vobj attrs => exact extract_body_eq_spec (PyVal.vobj attrs)

/-- C5: extraction searches the payload top level first, then a truthy
nested gps_stats/gpsStats object, then a truthy location/position
object, returning at the first level where latitude and longitude are
both present and numeric-coercible (string-typed numbers included);
top-level values beat a conflicting nested location object, and the
result is none exactly when every level fails. -/
theorem C5_extraction_precedence :
    (∀ p : PyVal, _extract_location p = extractSpec p) ∧
      _extract_location
          (PyVal.vdict [("lat", PyVal.vnum 1), ("lon", PyVal.vnum 2),
            ("location", PyVal.vdict [("latitude", PyVal.vnum 9), ("longitude", PyVal.vnum 8)])]) =
        some ⟨1, 2, 0⟩ ∧
      _extract_location
          (PyVal.vdict [("latitude", PyVal.vstr "10.5"), ("longitude", PyVal.vstr "20.25")]) =
        some ⟨mkRat 21 2, mkRat 81 4, 0⟩ :=
  ⟨extract_location_eq_spec, by decide, by decide⟩

/-- C10: the field lookup walks its name list in order, testing dict
membership then attribute presence for each name, and returns the value
of the first name present; in particular a payload carrying both
spellings lat and latitude with different values is read through lat. -/
theorem C10_get_attr_first_name_wins :
    (∀ (obj : PyVal) (names : List String),
        _get_attr obj names = firstPresent obj names) ∧
      (∀ (obj : PyVal) (n : String),
          pyGetOne obj n =
            if isDict obj && dictMem obj n then some (dictGet obj n)
            else if hasattrPy obj n then some (getattrPy obj n)
            else none) ∧
      _extract_location
          (PyVal.vdict [("lat", PyVal.vnum 5), ("latitude", PyVal.vnum 9), ("lon", PyVal.vnum 7)]) =
        some ⟨5, 7, 0⟩ :=
  ⟨fun obj names => get_attr_eq_findSome obj names, pyGetOne_eval, by decide⟩

theorem pyStrTruthy_some_ne (s : String) (hs : s ≠ "") : pyStrTruthy (some s) = true := by
  simp [pyStrTruthy, hs]

theorem pyStrTruthy_none_eq : pyStrTruthy none = false := rfl

theorem pyStrTruthy_some_empty : pyStrTruthy (some "") = false := rfl

/-- C6: detect_dish_host returns the first success of the explicit
override, the dish-IP then dish-host environment variables, DNS lookup
of dish then starlink, and the fixed default IP gated by a half-second
TCP probe of port 9200; it returns none when all four stages fail, and
a truthy explicit override is returned identically in every world, so
no environment read, DNS lookup or probe influences the result. -/
theorem C6_resolution_order :
    (∀ (w w2 : NetWorld) (s : String), s ≠ "" →
        detect_dish_host w (some s) = some s ∧
          detect_dish_host w (some s) = detect_dish_host w2 (some s)) ∧
      ∀ (w : NetWorld) (e : Option String), pyStrTruthy e = false →
        (∀ s, w.getenv "STARLINK_DISH_IP" = some s → s ≠ "" →
            detect_dish_host w e = some s) ∧
          (pyStrTruthy (w.getenv "STARLINK_DISH_IP") = false →
            (∀ s, w.getenv "STARLINK_DISH_HOST" = some s → s ≠ "" →
                detect_dish_host w e = some s) ∧
              (pyStrTruthy (w.getenv "STARLINK_DISH_HOST") = false →
                (∀ ip, w.gethostbyname "dish" = some ip → ip ≠ "" →
                    detect_dish_host w e = some ip) ∧
                  ((w.gethostbyname "dish" = none ∨ w.gethostbyname "dish" = some "") →
                    (∀ ip, w.gethostbyname "starlink" = some ip → ip ≠ "" →
                        detect_dish_host w e = some ip) ∧
                      ((w.gethostbyname "starlink" = none ∨
                          w.gethostbyname "starlink" = some "") →
                        detect_dish_host w e =
                          if w.probe "192.168.100.1" 9200 (mkRat 1 2) then
                            some "192.168.100.1"
                          else none)))) := by
  constructor
  · intro w w2 s hs
    constructor <;> simp [detect_dish_host, pyStrTruthy_some_ne s hs]
  · intro w e he
    constructor
    · intro s hip hs
      simp [detect_dish_host, he, hip, hs, pyStrTruthy_some_ne s hs]
    · intro hipf
      have hipcase : w.getenv "STARLINK_DISH_IP" = none ∨
          w.getenv "STARLINK_DISH_IP" = some "" := by
        cases h : w.getenv "STARLINK_DISH_IP" with
        | none => exact Or.inl rfl
        | some s =>
          right
          rw [h] at hipf
          by_cases hs : s = ""
          · rw [hs]
          · rw [pyStrTruthy_some_ne s hs] at hipf; exact absurd hipf (by simp)
      constructor
      · intro s hhost hs
        rcases hipcase with h | h <;>
          simp [detect_dish_host, he, h, hhost, hs, pyStrTruthy_some_empty,
            pyStrTruthy_some_ne s hs]
      · intro hhostf
        have hhostcase : w.getenv "STARLINK_DISH_HOST" = none ∨
            w.getenv "STARLINK_DISH_HOST" = some "" := by
          cases h : w.getenv "STARLINK_DISH_HOST" with
          | none => exact Or.inl rfl
          | some s =>
            right
            rw [h] at hhostf
            by_cases hs : s = ""
            · rw [hs]
            · rw [pyStrTruthy_some_ne s hs] at hhostf; exact absurd hhostf (by simp)
        constructor
        · intro ip hdish hip
          rcases hipcase with h1 | h1 <;> rcases hhostcase with h2 | h2 <;>
            simp [detect_dish_host, hostLoop, he, h1, h2, hdish, hip,
              pyStrTruthy_none_eq, pyStrTruthy_some_empty]
        · intro hdishf
          constructor
          · intro ip hsl hip
            rcases hipcase with h1 | h1 <;> rcases hhostcase with h2 | h2 <;>
              rcases hdishf with h3 | h3 <;>
                simp [detect_dish_host, hostLoop, he, h1, h2, h3, hsl, hip,
                  pyStrTruthy_none_eq, pyStrTruthy_some_empty]
          · intro hslf
            rcases hipcase with h1 | h1 <;> rcases hhostcase with h2 | h2 <;>
              rcases hdishf with h3 | h3 <;> rcases hslf with h4 | h4 <;>
                simp [detect_dish_host, _probe_port, hostLoop, he, h1, h2, h3, h4,
                  pyStrTruthy_none_eq, pyStrTruthy_some_empty]

/-- Witness for C6 in a concrete world with a truthy override. -/
theorem C6_resolution_order_witness :
    detect_dish_host ⟨fun _ => none, fun _ => none, fun _ _ _ => false⟩ (some "10.0.0.5") =
        some "10.0.0.5" ∧
      detect_dish_host ⟨fun _ => none, fun _ => none, fun _ _ _ => false⟩ (some "10.0.0.5") =
        detect_dish_host ⟨fun _ => some "X", fun _ => some "Y", fun _ _ _ => true⟩
          (some "10.0.0.5") :=
  C6_resolution_order.1 ⟨fun _ => none, fun _ => none, fun _ _ _ => false⟩
    ⟨fun _ => some "X", fun _ => some "Y", fun _ _ _ => true⟩ "10.0.0.5" (by decide)

/-- C7: with an unresolved device address the acquirer cannot crash: the
HTTP strategy is skipped without consulting the fetch oracle (the
result is identical in every HTTP world and the HTTP helper returns
none outright), the library strategies are attempted address-free, a
raising strategy is absorbed rather than propagated, and the result is
always an optional coordinate. -/
theorem C7_unresolved_address_safe :
    (∀ (lib : Option StarlinkGrpc) (f f2 : String → String → Except Unit PyVal),
        get_starlink_location ⟨lib, f⟩ none = get_starlink_location ⟨lib, f2⟩ none) ∧
      (∀ f : String → String → Except Unit PyVal, get_starlink_location_http f none = none) ∧
      (∀ g : PyCallable, _call_with_host g none = g.noArg) ∧
      ∀ f : String → String → Except Unit PyVal,
        get_starlink_location
          ⟨some ⟨some ⟨some errCallable⟩, some ⟨some errCallable⟩, some errCallable⟩, f⟩
          none = none := by
  refine ⟨fun lib f f2 => ?_, fun _ => rfl, fun _ => rfl, fun _ => rfl⟩
  cases lib with
  | none => rfl
  | some l =>
    cases h1 : tryGetLocation l.dish none with
    | some r => simp [get_starlink_location, h1]
    | none =>
      cases h2 : tryGetLocation l.grpc none with
      | some r => simp [get_starlink_location, h1, h2]
      | none =>
        cases h3 : tryGetStatus l.get_status none with
        | some r => simp [get_starlink_location, h1, h2, h3]
        | none => simp [get_starlink_location, get_starlink_location_http, h1, h2, h3]

/-- C1 counterexample: the claim says a strategy whose payload fails
location extraction falls through to the next strategy and the overall
result is none only when every strategy yields nothing; but in envC1
the dish call succeeds with a coordinate-free payload and the function
returns none immediately, even though the get_status strategy holds a
usable coordinate. -/
theorem C1_counterexample :
    get_starlink_location envC1 (some "192.168.100.1") = none ∧
      _call_with_host (okCallable statusPayload) (some "192.168.100.1") =
        .ok statusPayload ∧
      _extract_location statusPayload = some ⟨1, 2, 0⟩ :=
  ⟨rfl, rfl, rfl⟩

/-- C1 amended: the strategies run in the fixed order dish.get_location,
grpc.get_location, get_status, HTTP fallback, but a strategy falls
through only when it is unavailable or its invocation raises; an
invocation that returns a payload makes the function return the
extraction of that payload immediately — even when the extraction is
empty — and an absent library yields none without attempting the HTTP
fallback. -/
theorem C1_amended_strategy_order :
    ∀ (env : StarlinkEnv) (host : Option String),
      (env.lib = none → get_starlink_location env host = none) ∧
        (∀ (sub : Option SubObj) (d : SubObj) (f : PyCallable) (payload : PyVal),
            sub = some d → d.get_location = some f →
            _call_with_host f host = .ok payload →
            tryGetLocation sub host = some (_extract_location payload)) ∧
        ∀ lib, env.lib = some lib →
          (∀ r, tryGetLocation lib.dish host = some r →
              get_starlink_location env host = r) ∧
            (tryGetLocation lib.dish host = none →
              (∀ r, tryGetLocation lib.grpc host = some r →
                  get_starlink_location env host = r) ∧
                (tryGetLocation lib.grpc host = none →
                  (∀ r, tryGetStatus lib.get_status host = some r →
                      get_starlink_location env host = r) ∧
                    (tryGetStatus lib.get_status host = none →
                      get_starlink_location env host =
                        get_starlink_location_http env.fetch host))) := by
  intro env host
  refine ⟨fun h => by simp [get_starlink_location, h], ?_, ?_⟩
  · intro sub d f payload hsub hf hc
    simp [tryGetLocation, hsub, hf, hc]
  · intro lib hlib
    refine ⟨fun r h1 => by simp [get_starlink_location, hlib, h1], fun h1 => ?_⟩
    refine ⟨fun r h2 => by simp [get_starlink_location, hlib, h1, h2], fun h2 => ?_⟩
    refine ⟨fun r h3 => by simp [get_starlink_location, hlib, h1, h2, h3], fun h3 => ?_⟩
    simp [get_starlink_location, hlib, h1, h2, h3]

/-- Witness for C1 amended, at the concrete envC1 world. -/
theorem C1_amended_strategy_order_witness :
    get_starlink_location envC1 (some "192.168.100.1") =
      _extract_location emptyPayload :=
  ((C1_amended_strategy_order envC1 (some "192.168.100.1")).2.2
      ⟨some ⟨some (okCallable emptyPayload)⟩, none, some (okCallable statusPayload)⟩
      rfl).1 (_extract_location emptyPayload) rfl

/-- C8: one TCP broadcast pass keeps exactly the clients whose write
succeeded, in order, and closes exactly the clients whose write failed;
each client of the list survives if and only if its own write
succeeded, independently of every other client. -/
theorem C8_broadcast_eviction :
    ∀ (κ : Type) (sendOk : κ → Bool) (clients : List κ),
      (broadcastPass sendOk clients).1 = clients.filter sendOk ∧
        (broadcastPass sendOk clients).2 = clients.filter (fun c => !sendOk c) ∧
        ∀ c, c ∈ clients →
          ((c ∈ (broadcastPass sendOk clients).1 ↔ sendOk c = true) ∧
            (c ∈ (broadcastPass sendOk clients).2 ↔ sendOk c = false)) := by
  intro κ sendOk clients
  have hf : (broadcastPass sendOk clients).1 = clients.filter sendOk ∧
      (broadcastPass sendOk clients).2 = clients.filter (fun c => !sendOk c) := by
    induction clients with
    | nil => exact ⟨rfl, rfl⟩
    | cons c rest ih =>
      cases h : sendOk c <;>
        simp [broadcastPass, h, List.filter_cons, ih.1, ih.2]
  refine ⟨hf.1, hf.2, fun c hc => ?_⟩
  rw [hf.1, hf.2]
  constructor
  · simp [List.mem_filter, hc]
  · simp [List.mem_filter, hc]

/-- Witness for C8 on a concrete client list where exactly one write
fails. -/
theorem C8_broadcast_eviction_witness :
    (2 : ℕ) ∈ [1, 2, 3] ∧
      (((2 : ℕ) ∈ (broadcastPass (fun n : ℕ => decide (n ≠ 2)) [1, 2, 3]).1 ↔
          decide ((2 : ℕ) ≠ 2) = true) ∧
        ((2 : ℕ) ∈ (broadcastPass (fun n : ℕ => decide (n ≠ 2)) [1, 2, 3]).2 ↔
          decide ((2 : ℕ) ≠ 2) = false)) :=
  ⟨by decide,
    (C8_broadcast_eviction ℕ (fun n : ℕ => decide (n ≠ 2)) [1, 2, 3]).2.2 2 (by decide)⟩
